import Mathlib

/-!
Verification of the GridSense AI core (src/app.py) against its
natural-language specification.

The core consists of two Python functions:
* `generate_random_signals(is_critical)` — draws a synthetic sensor snapshot
  from `random`;
* `gridsense_reroute_logic(signals)` — the pure decision engine mapping a
  snapshot to a status glyph, five message strings and a stress index.

The embedding below translates these functions directly.  Python's integer
fields become `ℤ`; the float `weather_score` and the stress index become `ℚ`
(every arithmetic the engine performs on them is exact decimal arithmetic on
integer inputs, so `ℚ` represents the computed values faithfully; the branch
test `stress_index >= 80` is modelled as the same comparison on the computed
value).  Randomness is modelled by an injectable random source, as the spec's
generator contract `generate(is_critical, rng)` requires.
-/

/-- A sensor snapshot: the dictionary produced by `generate_random_signals`
and consumed by `gridsense_reroute_logic` (src/app.py lines 25-34). -/
structure SensorSnapshot where
  temperature : ℤ
  humidity : ℤ
  component_age_score : ℤ
  load_percentage : ℤ
  fault_signal : ℤ
  current_topology : String
  renewable_input : ℤ
  weather_score : ℚ
deriving DecidableEq, Repr

/-- The tuple returned by `gridsense_reroute_logic` (src/app.py line 73):
status glyph, five message strings, and the stress index. -/
structure DecisionRecord where
  status_color : String
  fault_alert : String
  self_care_alert : String
  reroute_message : String
  future_prediction : String
  sustainability_suggestion : String
  stress_index : ℚ
deriving DecidableEq, Repr

/-- `stress_index = (temp * 0.4) + (humidity * 0.3) + (age * 0.3)`
(src/app.py line 43). -/
def stressIndex (signals : SensorSnapshot) : ℚ :=
  (signals.temperature : ℚ) * 0.4 + (signals.humidity : ℚ) * 0.3
    + (signals.component_age_score : ℚ) * 0.3

/-- `CRITICAL_THRESHOLD = 80` (src/app.py line 44). -/
def CRITICAL_THRESHOLD : ℚ := 80

/-- Renders the exact rational `n / 10` with one digit after the decimal
point, for nonnegative `n`.  This is what Python's `f"{stress_index:.1f}"`
produces at src/app.py line 56: on in-domain integer inputs the stress index
is exactly a multiple of 1/10, and the float computed by the source is within
1e-12 of it, so rounding the float to one decimal reproduces the exact
value. -/
def formatTenths (n : ℤ) : String :=
  toString (n / 10) ++ "." ++ toString (n % 10)

/-- The integer `4*temp + 3*humidity + 3*age`, i.e. ten times the stress
index; its `formatTenths` rendering is the `{stress_index:.1f}`
interpolation of src/app.py line 56. -/
def stressDeci (signals : SensorSnapshot) : ℤ :=
  4 * signals.temperature + 3 * signals.humidity + 3 * signals.component_age_score

/-- The default message set (src/app.py lines 46-52), which is what the final
`else`-free fall-through returns: green glyph, nominal messages, and a
sustainability line interpolating `signals['renewable_input']`. -/
def normalRecord (signals : SensorSnapshot) : DecisionRecord where
  status_color := "🟢"
  fault_alert := "No existing physical fault detected (Fault Sensor: Nominal)."
  self_care_alert := "AI actively monitoring key stressors."
  reroute_message := "Line A carrying full load, Line B on standby."
  future_prediction := "Stable. No maintenance required."
  sustainability_suggestion :=
    "Routing " ++ toString signals.renewable_input ++ " MW clean energy efficiently."
  stress_index := stressIndex signals

/-- The critical branch (src/app.py lines 54-60): red glyph, micro-failure
prediction interpolating the stress index to one decimal, and a
sustainability line interpolating `signals['renewable_input']`. -/
def criticalRecord (signals : SensorSnapshot) : DecisionRecord where
  status_color := "🔴"
  fault_alert :=
    "🚨 MICRO-FAILURE PREDICTED: Stress Index " ++ formatTenths (stressDeci signals)
      ++ ". Failure likely < 72 hours."
  self_care_alert := "⚡ REROUTE INITIATED: Calculating optimal power path."
  reroute_message := "✅ Stability maintained: Power rerouted to Line B, Line A isolated."
  future_prediction := "Trend: CRITICAL. Rising stress; immediate isolation advised."
  sustainability_suggestion :=
    "Action: Rerouting prioritized " ++ toString signals.renewable_input ++ " MW renewables."
  stress_index := stressIndex signals

/-- The fault branch (src/app.py lines 61-67): orange glyph and the
emergency-reroute message set; every message is a fixed string. -/
def faultRecord (signals : SensorSnapshot) : DecisionRecord where
  status_color := "🟠"
  fault_alert := "⚠️ REAL-TIME FAULT: Issue detected; AI mitigating damage."
  self_care_alert := "⚡ EMERGENCY REROUTE: Isolating fault sector."
  reroute_message := "🔄 Emergency reroute in progress. Grid recovering."
  future_prediction := "Trend: INSTABILITY. Further predictive monitoring ongoing."
  sustainability_suggestion := "Efficiency temporarily reduced; optimization underway."
  stress_index := stressIndex signals

/-- The high-load branch (src/app.py lines 69-71): the source keeps all the
default values and overwrites only `future_prediction` (interpolating
`load`) and `sustainability_suggestion` (a fixed string). -/
def loadedRecord (signals : SensorSnapshot) : DecisionRecord :=
  { normalRecord signals with
    future_prediction :=
      "Load high (" ++ toString signals.load_percentage ++ "%). Balancing advised."
    sustainability_suggestion := "Shifting 10% load to Line B to avoid wastage." }

/-- `gridsense_reroute_logic` (src/app.py lines 36-73): sets the default
message values, then overwrites them in the first matching branch of
`if stress_index >= CRITICAL_THRESHOLD / elif fault_signal == 1 /
elif load > 80`. -/
def gridsense_reroute_logic (signals : SensorSnapshot) : DecisionRecord :=
  if stressIndex signals ≥ CRITICAL_THRESHOLD then criticalRecord signals
  else if signals.fault_signal = 1 then faultRecord signals
  else if signals.load_percentage > 80 then loadedRecord signals
  else normalRecord signals

/-- The spec's `status_tier`, read off the status glyph the engine returns
(🔴 = Critical branch, 🟠 = Fault branch, 🟢 = Normal, including the
high-load sub-case). -/
inductive StatusTier : Type where
  | Normal : StatusTier
  | Fault : StatusTier
  | Critical : StatusTier
deriving DecidableEq, Repr

/-- Tier of a decision record, determined by its status glyph. -/
def statusTier (r : DecisionRecord) : StatusTier :=
  if r.status_color = "🔴" then StatusTier.Critical
  else if r.status_color = "🟠" then StatusTier.Fault
  else StatusTier.Normal

/-- `system_health` as exported in `output_data` (src/app.py line 127):
`"HEALTHY" if status_c == "🟢" else "ALERT"`. -/
def system_health (r : DecisionRecord) : String :=
  if r.status_color = "🟢" then "HEALTHY" else "ALERT"

/-- The declared domain of every snapshot field (spec §3 data-model table;
these are exactly the ranges the UI sliders at src/app.py lines 97-103
enforce). -/
def InDomain (s : SensorSnapshot) : Prop :=
  50 ≤ s.temperature ∧ s.temperature ≤ 100 ∧
  30 ≤ s.humidity ∧ s.humidity ≤ 100 ∧
  0 ≤ s.component_age_score ∧ s.component_age_score ≤ 100 ∧
  0 ≤ s.load_percentage ∧ s.load_percentage ≤ 100 ∧
  (s.fault_signal = 0 ∨ s.fault_signal = 1) ∧
  0 ≤ s.renewable_input ∧ s.renewable_input ≤ 2000 ∧
  0 ≤ s.weather_score ∧ s.weather_score ≤ 1 ∧
  (s.current_topology = "Normal-A/B" ∨ s.current_topology = "Rerouted-B/A")

instance (s : SensorSnapshot) : Decidable (InDomain s) := by
  unfold InDomain; exact inferInstance

/-- `pat` occurs verbatim inside `msg`: the message references the number
`n` textually (its decimal rendering is a substring). -/
def mentionsNum (msg : String) (n : ℤ) : Prop :=
  (toString n).data <:+: msg.data

instance (msg : String) (n : ℤ) : Decidable (mentionsNum msg n) := by
  unfold mentionsNum; exact List.decidableInfix _ _

/-- No character of `msg` is a decimal digit, hence `msg` contains no
numeric rendering of any value at all. -/
def noDigits (msg : String) : Prop :=
  ∀ c ∈ msg.data, ¬ c.isDigit

instance (msg : String) : Decidable (noDigits msg) := by
  unfold noDigits; exact inferInstance

/-- An injectable random source over an abstract generator state `σ`,
supplying the four primitives `generate_random_signals` consumes:
`random.randint`, `random.choice` on an integer list, `random.choice` on a
string list, and `random.uniform` (spec §4.1 requires the source to be
injectable). -/
structure RandomSource (σ : Type) where
  randint : ℤ → ℤ → σ → ℤ × σ
  choiceInt : List ℤ → σ → ℤ × σ
  choiceStr : List String → σ → String × σ
  uniform : ℚ → ℚ → σ → ℚ × σ

/-- A random source behaves like Python's `random`: `randint a b` lands in
the inclusive range `[a, b]`, `choice` picks an element of its (nonempty)
list, and `uniform a b` lands in `[a, b]`. -/
structure LawfulRandomSource {σ : Type} (rng : RandomSource σ) : Prop where
  randint_mem : ∀ a b s, a ≤ b →
    a ≤ (rng.randint a b s).1 ∧ (rng.randint a b s).1 ≤ b
  choiceInt_mem : ∀ l s, l ≠ [] → (rng.choiceInt l s).1 ∈ l
  choiceStr_mem : ∀ l s, l ≠ [] → (rng.choiceStr l s).1 ∈ l
  uniform_mem : ∀ a b s, a ≤ b →
    a ≤ (rng.uniform a b s).1 ∧ (rng.uniform a b s).1 ≤ b

/-- `generate_random_signals` (src/app.py lines 12-34): draws temperature,
humidity, component age and load from the stressed sub-ranges when
`is_critical` and from the nominal sub-ranges otherwise, then fills in
`fault_signal` (1 with probability 1/4 resp. 1/6), `current_topology`,
`renewable_input` and `weather_score`, threading the generator state through
the calls in source order. -/
def generate_random_signals {σ : Type} (rng : RandomSource σ) (is_critical : Bool)
    (s0 : σ) : SensorSnapshot × σ :=
  let t := if is_critical then rng.randint 90 100 s0 else rng.randint 50 85 s0
  let h := if is_critical then rng.randint 80 100 t.2 else rng.randint 30 75 t.2
  let a := if is_critical then rng.randint 70 95 h.2 else rng.randint 10 65 h.2
  let l := if is_critical then rng.randint 90 100 a.2 else rng.randint 30 85 a.2
  let f := if is_critical then rng.choiceInt [0, 0, 0, 1] l.2
           else rng.choiceInt [0, 0, 0, 0, 0, 1] l.2
  let topo := rng.choiceStr ["Normal-A/B", "Rerouted-B/A"] f.2
  let r := rng.randint 500 1500 topo.2
  let w := rng.uniform 0.5 0.95 r.2
  ({ temperature := t.1
     humidity := h.1
     component_age_score := a.1
     load_percentage := l.1
     fault_signal := f.1
     current_topology := topo.1
     renewable_input := r.1
     weather_score := w.1 }, w.2)

/-! ## Branch lemmas for the decision engine -/

theorem logic_critical (s : SensorSnapshot) (h : CRITICAL_THRESHOLD ≤ stressIndex s) :
    gridsense_reroute_logic s = criticalRecord s := by
  unfold gridsense_reroute_logic
  rw [if_pos h]

theorem logic_fault (s : SensorSnapshot) (h : stressIndex s < CRITICAL_THRESHOLD)
    (hf : s.fault_signal = 1) :
    gridsense_reroute_logic s = faultRecord s := by
  unfold gridsense_reroute_logic
  rw [if_neg (not_le.mpr h), if_pos hf]

theorem logic_loaded (s : SensorSnapshot) (h : stressIndex s < CRITICAL_THRESHOLD)
    (hf : s.fault_signal ≠ 1) (hl : s.load_percentage > 80) :
    gridsense_reroute_logic s = loadedRecord s := by
  unfold gridsense_reroute_logic
  rw [if_neg (not_le.mpr h), if_neg hf, if_pos hl]

theorem logic_normal (s : SensorSnapshot) (h : stressIndex s < CRITICAL_THRESHOLD)
    (hf : s.fault_signal ≠ 1) (hl : ¬ s.load_percentage > 80) :
    gridsense_reroute_logic s = normalRecord s := by
  unfold gridsense_reroute_logic
  rw [if_neg (not_le.mpr h), if_neg hf, if_neg hl]

/-- Every branch of the engine reports the stress index it computed. -/
theorem logic_stress_index (s : SensorSnapshot) :
    (gridsense_reroute_logic s).stress_index = stressIndex s := by
  unfold gridsense_reroute_logic
  split <;> [rfl; skip]
  split <;> [rfl; skip]
  split <;> rfl

/-- The status glyph is always one of the three branch colors. -/
theorem logic_status_color (s : SensorSnapshot) :
    (gridsense_reroute_logic s).status_color = "🟢"
      ∨ (gridsense_reroute_logic s).status_color = "🟠"
      ∨ (gridsense_reroute_logic s).status_color = "🔴" := by
  unfold gridsense_reroute_logic
  split
  · exact Or.inr (Or.inr rfl)
  split
  · exact Or.inr (Or.inl rfl)
  split
  · exact Or.inl rfl
  · exact Or.inl rfl

/-! ## Claims -/

/-- C1: for every snapshot whose fields lie in their declared domains, if the
computed stress index is at least 80 then the engine classifies it as
Critical, regardless of `fault_signal` and `load_percentage`; the threshold
is inclusive, so a stress index of exactly 80 is Critical. -/
theorem C1_critical_threshold_inclusive (s : SensorSnapshot) (hdom : InDomain s)
    (h : stressIndex s ≥ 80) :
    statusTier (gridsense_reroute_logic s) = StatusTier.Critical := by
  rw [logic_critical s h]
  rfl

/-- Witness for C1 at the exact-boundary snapshot (80, 80, 80, ...), whose
stress index is exactly 80. -/
theorem C1_witness :
    InDomain ⟨80, 80, 80, 0, 0, "Normal-A/B", 0, 0⟩
    ∧ stressIndex ⟨80, 80, 80, 0, 0, "Normal-A/B", 0, 0⟩ = 80
    ∧ statusTier (gridsense_reroute_logic ⟨80, 80, 80, 0, 0, "Normal-A/B", 0, 0⟩)
        = StatusTier.Critical :=
  ⟨by norm_num [InDomain], by norm_num [stressIndex],
    C1_critical_threshold_inclusive _ (by norm_num [InDomain])
      (by norm_num [stressIndex])⟩

/-- C2: the engine's reported stress index is exactly
`0.4*temperature + 0.3*humidity + 0.3*component_age_score`, and it does not
depend on `load_percentage`, `fault_signal`, `weather_score`,
`current_topology` or `renewable_input` (any two snapshots agreeing on the
three stress inputs get the same stress index). -/
theorem C2_stress_formula_and_independence (s t : SensorSnapshot)
    (ht : s.temperature = t.temperature) (hh : s.humidity = t.humidity)
    (ha : s.component_age_score = t.component_age_score) :
    (gridsense_reroute_logic s).stress_index
      = 0.4 * (s.temperature : ℚ) + 0.3 * (s.humidity : ℚ)
          + 0.3 * (s.component_age_score : ℚ)
    ∧ (gridsense_reroute_logic s).stress_index
        = (gridsense_reroute_logic t).stress_index := by
  constructor
  · rw [logic_stress_index]; unfold stressIndex; ring
  · rw [logic_stress_index, logic_stress_index]; unfold stressIndex
    rw [ht, hh, ha]

/-- Witness for C2: two snapshots sharing temperature 60, humidity 40 and age
20 but differing in every other field get the same stress index, 42. -/
theorem C2_witness :
    (gridsense_reroute_logic ⟨60, 40, 20, 50, 0, "Normal-A/B", 900, 0⟩).stress_index
      = 0.4 * ((60 : ℤ) : ℚ) + 0.3 * ((40 : ℤ) : ℚ) + 0.3 * ((20 : ℤ) : ℚ)
    ∧ (gridsense_reroute_logic ⟨60, 40, 20, 50, 0, "Normal-A/B", 900, 0⟩).stress_index
        = (gridsense_reroute_logic ⟨60, 40, 20, 90, 1, "Rerouted-B/A", 100, 1⟩).stress_index :=
  C2_stress_formula_and_independence _ _ rfl rfl rfl

/-- C3: a snapshot with stress index below 80 and `fault_signal = 1` is
classified as Fault and gets the emergency-reroute message set, none of
whose strings contains any digit — in particular none references the
`renewable_input` value numerically. -/
theorem C3_fault_branch (s : SensorSnapshot) (hdom : InDomain s)
    (hs : stressIndex s < 80) (hf : s.fault_signal = 1) :
    statusTier (gridsense_reroute_logic s) = StatusTier.Fault
    ∧ (gridsense_reroute_logic s).fault_alert
        = "⚠️ REAL-TIME FAULT: Issue detected; AI mitigating damage."
    ∧ (gridsense_reroute_logic s).self_care_alert
        = "⚡ EMERGENCY REROUTE: Isolating fault sector."
    ∧ (gridsense_reroute_logic s).reroute_message
        = "🔄 Emergency reroute in progress. Grid recovering."
    ∧ (gridsense_reroute_logic s).future_prediction
        = "Trend: INSTABILITY. Further predictive monitoring ongoing."
    ∧ (gridsense_reroute_logic s).sustainability_suggestion
        = "Efficiency temporarily reduced; optimization underway."
    ∧ noDigits (gridsense_reroute_logic s).fault_alert
    ∧ noDigits (gridsense_reroute_logic s).self_care_alert
    ∧ noDigits (gridsense_reroute_logic s).reroute_message
    ∧ noDigits (gridsense_reroute_logic s).future_prediction
    ∧ noDigits (gridsense_reroute_logic s).sustainability_suggestion := by
  rw [logic_fault s hs hf]
  exact ⟨rfl, rfl, rfl, rfl, rfl, rfl,
    (by decide : noDigits "⚠️ REAL-TIME FAULT: Issue detected; AI mitigating damage."),
    (by decide : noDigits "⚡ EMERGENCY REROUTE: Isolating fault sector."),
    (by decide : noDigits "🔄 Emergency reroute in progress. Grid recovering."),
    (by decide : noDigits "Trend: INSTABILITY. Further predictive monitoring ongoing."),
    (by decide : noDigits "Efficiency temporarily reduced; optimization underway.")⟩

/-- Appending strings concatenates their character lists. -/
theorem data_append (a b : String) : (a ++ b).data = a.data ++ b.data := rfl

/-- A string built by interpolating the decimal rendering of `n` mentions
`n`. -/
theorem mentions_interp (pre mid post : String) (n : ℤ) (h : mid = toString n) :
    mentionsNum (pre ++ mid ++ post) n := by
  unfold mentionsNum
  rw [data_append, data_append, ← h]
  exact List.infix_append _ _ _

/-- Strings with different first characters are different. -/
theorem string_ne_of_head_ne (a b : String) (h : a.data.head? ≠ b.data.head?) :
    a ≠ b :=
  fun e => h (congrArg (fun x => x.data.head?) e)

/-- First character of an interpolated string `a ++ x ++ b` is the first
character of its literal prefix `a`. -/
theorem head_append2 (a x b : String) (c : Char) (l : List Char)
    (h : a.data = c :: l) : ((a ++ x) ++ b).data.head? = some c := by
  rw [data_append, data_append, h]
  rfl

/-- Witness for C3 at a concrete in-domain snapshot with stress index 42 and
an active fault signal. -/
theorem C3_witness :
    InDomain ⟨60, 40, 20, 50, 1, "Normal-A/B", 900, 1/2⟩
    ∧ stressIndex ⟨60, 40, 20, 50, 1, "Normal-A/B", 900, 1/2⟩ < 80
    ∧ statusTier (gridsense_reroute_logic ⟨60, 40, 20, 50, 1, "Normal-A/B", 900, 1/2⟩)
        = StatusTier.Fault :=
  ⟨by norm_num [InDomain], by norm_num [stressIndex],
    (C3_fault_branch _ (by norm_num [InDomain]) (by norm_num [stressIndex]) rfl).1⟩

/-- C4 counterexample: at the in-domain snapshot (50, 30, 0, load 90,
fault 0), which takes the high-load branch, `sustainability_suggestion` is
the fixed string "Shifting 10% load to Line B to avoid wastage.", which does
not contain the literal load value 90 — refuting the claim that both
`future_prediction` and `sustainability_focus` reference the literal
`load_percentage` value. -/
theorem C4_counterexample :
    InDomain ⟨50, 30, 0, 90, 0, "Normal-A/B", 1000, 1/2⟩
    ∧ stressIndex ⟨50, 30, 0, 90, 0, "Normal-A/B", 1000, 1/2⟩ < 80
    ∧ (⟨50, 30, 0, 90, 0, "Normal-A/B", 1000, 1/2⟩ : SensorSnapshot).fault_signal = 0
    ∧ (⟨50, 30, 0, 90, 0, "Normal-A/B", 1000, 1/2⟩ : SensorSnapshot).load_percentage > 80
    ∧ (gridsense_reroute_logic
        ⟨50, 30, 0, 90, 0, "Normal-A/B", 1000, 1/2⟩).sustainability_suggestion
        = "Shifting 10% load to Line B to avoid wastage."
    ∧ ¬ mentionsNum
        (gridsense_reroute_logic
          ⟨50, 30, 0, 90, 0, "Normal-A/B", 1000, 1/2⟩).sustainability_suggestion
        ((⟨50, 30, 0, 90, 0, "Normal-A/B", 1000, 1/2⟩ : SensorSnapshot).load_percentage) := by
  refine ⟨by norm_num [InDomain], by norm_num [stressIndex], rfl, by norm_num, ?_, ?_⟩
  · rw [logic_loaded _ (by norm_num [stressIndex, CRITICAL_THRESHOLD]) (by decide) (by norm_num)]
    rfl
  · rw [logic_loaded _ (by norm_num [stressIndex, CRITICAL_THRESHOLD]) (by decide) (by norm_num)]
    exact (by decide :
      ¬ mentionsNum "Shifting 10% load to Line B to avoid wastage." 90)

/-- C4 (amended): for every in-domain snapshot taken by the high-load branch
(stress index below 80, no fault signal, load above 80), `future_prediction`
interpolates the literal load value and recommends balancing, while
`sustainability_suggestion` recommends shifting load but is the fixed string
"Shifting 10% load to Line B to avoid wastage.", which does not interpolate
the load value. -/
theorem C4_loaded_messages (s : SensorSnapshot) (hdom : InDomain s)
    (hs : stressIndex s < 80) (hf : s.fault_signal = 0) (hl : s.load_percentage > 80) :
    (gridsense_reroute_logic s).future_prediction
      = "Load high (" ++ toString s.load_percentage ++ "%). Balancing advised."
    ∧ mentionsNum (gridsense_reroute_logic s).future_prediction s.load_percentage
    ∧ (gridsense_reroute_logic s).sustainability_suggestion
        = "Shifting 10% load to Line B to avoid wastage." := by
  have hf' : s.fault_signal ≠ 1 := by rw [hf]; decide
  rw [logic_loaded s hs hf' hl]
  exact ⟨rfl,
    mentions_interp "Load high (" (toString s.load_percentage)
      "%). Balancing advised." s.load_percentage rfl, rfl⟩

/-- Witness for C4's amended theorem at a concrete in-domain snapshot with
load 85. -/
theorem C4_witness :
    InDomain ⟨50, 30, 0, 85, 0, "Rerouted-B/A", 700, 1⟩
    ∧ (gridsense_reroute_logic ⟨50, 30, 0, 85, 0, "Rerouted-B/A", 700, 1⟩).future_prediction
        = "Load high (" ++ toString (85 : ℤ) ++ "%). Balancing advised."
    ∧ mentionsNum
        (gridsense_reroute_logic ⟨50, 30, 0, 85, 0, "Rerouted-B/A", 700, 1⟩).future_prediction
        85 :=
  ⟨by norm_num [InDomain],
    (C4_loaded_messages _ (by norm_num [InDomain]) (by norm_num [stressIndex])
      rfl (by norm_num)).1,
    (C4_loaded_messages _ (by norm_num [InDomain]) (by norm_num [stressIndex])
      rfl (by norm_num)).2.1⟩

/-- C5: the exported `system_health` field is "HEALTHY" exactly when the
status tier is Normal and "ALERT" otherwise; in particular the high-load
branch is a sub-case of Normal, so such snapshots export "HEALTHY". -/
theorem C5_system_health (s : SensorSnapshot) (hdom : InDomain s) :
    (system_health (gridsense_reroute_logic s) = "HEALTHY"
      ↔ statusTier (gridsense_reroute_logic s) = StatusTier.Normal)
    ∧ (stressIndex s < 80 → s.fault_signal = 0 → s.load_percentage > 80 →
        system_health (gridsense_reroute_logic s) = "HEALTHY") := by
  constructor
  · rcases logic_status_color s with h | h | h <;>
      simp [system_health, statusTier, h]
  · intro hs hf hl
    have hf' : s.fault_signal ≠ 1 := by rw [hf]; decide
    rw [logic_loaded s hs hf' hl]
    rfl

/-- Witness for C5 at a concrete in-domain snapshot taken by the high-load
branch (stress index 29, no fault, load 85). -/
theorem C5_witness :
    InDomain ⟨60, 40, 20, 85, 0, "Normal-A/B", 900, 0⟩
    ∧ (system_health (gridsense_reroute_logic ⟨60, 40, 20, 85, 0, "Normal-A/B", 900, 0⟩)
          = "HEALTHY"
        ↔ statusTier (gridsense_reroute_logic ⟨60, 40, 20, 85, 0, "Normal-A/B", 900, 0⟩)
          = StatusTier.Normal)
    ∧ system_health (gridsense_reroute_logic ⟨60, 40, 20, 85, 0, "Normal-A/B", 900, 0⟩)
        = "HEALTHY" :=
  ⟨by norm_num [InDomain],
    (C5_system_health _ (by norm_num [InDomain])).1,
    (C5_system_health _ (by norm_num [InDomain])).2 (by norm_num [stressIndex]) rfl
      (by norm_num)⟩

/-- C6 counterexample: at a snapshot whose temperature 500 is far outside
its declared domain [50, 100], the engine does not fail with any error: it
totally evaluates and returns the ordinary Critical record — refuting the
claim that `evaluate` raises an `OutOfRangeInput` error whenever a field
lies outside its declared domain. -/
theorem C6_counterexample :
    ¬ InDomain ⟨500, 30, 0, 0, 0, "Normal-A/B", 0, 0⟩
    ∧ gridsense_reroute_logic ⟨500, 30, 0, 0, 0, "Normal-A/B", 0, 0⟩
        = criticalRecord ⟨500, 30, 0, 0, 0, "Normal-A/B", 0, 0⟩
    ∧ statusTier (gridsense_reroute_logic ⟨500, 30, 0, 0, 0, "Normal-A/B", 0, 0⟩)
        = StatusTier.Critical := by
  refine ⟨?_, ?_, ?_⟩
  · intro h
    unfold InDomain at h
    exact absurd h.2.1 (by norm_num)
  · exact logic_critical _ (by norm_num [stressIndex, CRITICAL_THRESHOLD])
  · rw [logic_critical _ (by norm_num [stressIndex, CRITICAL_THRESHOLD])]
    rfl

/-- C6 (amended): the engine raises no error at all — `evaluate` is total on
every snapshot, in-domain or not, and always returns one of the four
ordinary message records; domain enforcement lives in the UI sliders, not in
the core. -/
theorem C6_total_no_error (s : SensorSnapshot) :
    gridsense_reroute_logic s = criticalRecord s
    ∨ gridsense_reroute_logic s = faultRecord s
    ∨ gridsense_reroute_logic s = loadedRecord s
    ∨ gridsense_reroute_logic s = normalRecord s := by
  unfold gridsense_reroute_logic
  split
  · exact Or.inl rfl
  split
  · exact Or.inr (Or.inl rfl)
  split
  · exact Or.inr (Or.inr (Or.inl rfl))
  · exact Or.inr (Or.inr (Or.inr rfl))

/-- C7: the engine is deterministic — two calls on an identical snapshot
yield identical records, field for field; it consumes no randomness and
holds no hidden state. -/
theorem C7_deterministic (s t : SensorSnapshot) (h : s = t) :
    gridsense_reroute_logic s = gridsense_reroute_logic t
    ∧ statusTier (gridsense_reroute_logic s) = statusTier (gridsense_reroute_logic t)
    ∧ (gridsense_reroute_logic s).status_color = (gridsense_reroute_logic t).status_color
    ∧ (gridsense_reroute_logic s).fault_alert = (gridsense_reroute_logic t).fault_alert
    ∧ (gridsense_reroute_logic s).self_care_alert
        = (gridsense_reroute_logic t).self_care_alert
    ∧ (gridsense_reroute_logic s).reroute_message
        = (gridsense_reroute_logic t).reroute_message
    ∧ (gridsense_reroute_logic s).future_prediction
        = (gridsense_reroute_logic t).future_prediction
    ∧ (gridsense_reroute_logic s).sustainability_suggestion
        = (gridsense_reroute_logic t).sustainability_suggestion
    ∧ (gridsense_reroute_logic s).stress_index = (gridsense_reroute_logic t).stress_index := by
  subst h
  exact ⟨rfl, rfl, rfl, rfl, rfl, rfl, rfl, rfl, rfl⟩

/-- Witness for C7: two textually identical snapshots yield equal records. -/
theorem C7_witness :
    gridsense_reroute_logic ⟨70, 50, 30, 60, 0, "Normal-A/B", 1200, 3/4⟩
      = gridsense_reroute_logic ⟨70, 50, 30, 60, 0, "Normal-A/B", 1200, 3/4⟩ :=
  (C7_deterministic ⟨70, 50, 30, 60, 0, "Normal-A/B", 1200, 3/4⟩
    ⟨70, 50, 30, 60, 0, "Normal-A/B", 1200, 3/4⟩ rfl).1

/-- C8: whenever the random source is lawful, a snapshot generated with
`is_critical = true` has temperature in [90, 100], humidity in [80, 100],
component age in [70, 95] and load in [90, 100]; and regardless of the
regime flag, `renewable_input` lies in [500, 1500] and `weather_score` in
[0.5, 0.95]. -/
theorem C8_generator_ranges {σ : Type} (rng : RandomSource σ)
    (law : LawfulRandomSource rng) (s0 : σ) :
    (90 ≤ (generate_random_signals rng true s0).1.temperature
      ∧ (generate_random_signals rng true s0).1.temperature ≤ 100
      ∧ 80 ≤ (generate_random_signals rng true s0).1.humidity
      ∧ (generate_random_signals rng true s0).1.humidity ≤ 100
      ∧ 70 ≤ (generate_random_signals rng true s0).1.component_age_score
      ∧ (generate_random_signals rng true s0).1.component_age_score ≤ 95
      ∧ 90 ≤ (generate_random_signals rng true s0).1.load_percentage
      ∧ (generate_random_signals rng true s0).1.load_percentage ≤ 100)
    ∧ (∀ is_critical : Bool,
        500 ≤ (generate_random_signals rng is_critical s0).1.renewable_input
        ∧ (generate_random_signals rng is_critical s0).1.renewable_input ≤ 1500
        ∧ 0.5 ≤ (generate_random_signals rng is_critical s0).1.weather_score
        ∧ (generate_random_signals rng is_critical s0).1.weather_score ≤ 0.95) := by
  constructor
  · unfold generate_random_signals
    simp only [if_pos]
    exact ⟨(law.randint_mem 90 100 _ (by norm_num)).1,
      (law.randint_mem 90 100 _ (by norm_num)).2,
      (law.randint_mem 80 100 _ (by norm_num)).1,
      (law.randint_mem 80 100 _ (by norm_num)).2,
      (law.randint_mem 70 95 _ (by norm_num)).1,
      (law.randint_mem 70 95 _ (by norm_num)).2,
      (law.randint_mem 90 100 _ (by norm_num)).1,
      (law.randint_mem 90 100 _ (by norm_num)).2⟩
  · intro is_critical
    unfold generate_random_signals
    exact ⟨(law.randint_mem 500 1500 _ (by norm_num)).1,
      (law.randint_mem 500 1500 _ (by norm_num)).2,
      (law.uniform_mem 0.5 0.95 _ (by norm_num)).1,
      (law.uniform_mem 0.5 0.95 _ (by norm_num)).2⟩

/-- A concrete lawful random source: every primitive returns the lower end
of its range and threads the unit state. -/
def floorRng : RandomSource Unit where
  randint := fun a _ s => (a, s)
  choiceInt := fun l s => (l.headD 0, s)
  choiceStr := fun l s => (l.headD "", s)
  uniform := fun a _ s => (a, s)

theorem floorRng_lawful : LawfulRandomSource floorRng := by
  constructor
  · intro a b s hab; exact ⟨le_refl a, hab⟩
  · intro l s hl
    cases l with
    | nil => exact absurd rfl hl
    | cons x xs => exact List.mem_cons_self x xs
  · intro l s hl
    cases l with
    | nil => exact absurd rfl hl
    | cons x xs => exact List.mem_cons_self x xs
  · intro a b s hab; exact ⟨le_refl a, hab⟩

/-- Witness for C8 using the concrete lawful source `floorRng`. -/
theorem C8_witness :
    (90 ≤ (generate_random_signals floorRng true ()).1.temperature
      ∧ (generate_random_signals floorRng true ()).1.temperature ≤ 100
      ∧ 80 ≤ (generate_random_signals floorRng true ()).1.humidity
      ∧ (generate_random_signals floorRng true ()).1.humidity ≤ 100
      ∧ 70 ≤ (generate_random_signals floorRng true ()).1.component_age_score
      ∧ (generate_random_signals floorRng true ()).1.component_age_score ≤ 95
      ∧ 90 ≤ (generate_random_signals floorRng true ()).1.load_percentage
      ∧ (generate_random_signals floorRng true ()).1.load_percentage ≤ 100)
    ∧ (∀ is_critical : Bool,
        500 ≤ (generate_random_signals floorRng is_critical ()).1.renewable_input
        ∧ (generate_random_signals floorRng is_critical ()).1.renewable_input ≤ 1500
        ∧ 0.5 ≤ (generate_random_signals floorRng is_critical ()).1.weather_score
        ∧ (generate_random_signals floorRng is_critical ()).1.weather_score ≤ 0.95) :=
  C8_generator_ranges floorRng floorRng_lawful ()

/-- C9: noninterference — two snapshots that agree on every field except
`weather_score` and `current_topology` produce identical decision records:
the engine's observable output is independent of those two fields. -/
theorem C9_noninterference (s t : SensorSnapshot)
    (h1 : s.temperature = t.temperature) (h2 : s.humidity = t.humidity)
    (h3 : s.component_age_score = t.component_age_score)
    (h4 : s.load_percentage = t.load_percentage)
    (h5 : s.fault_signal = t.fault_signal)
    (h6 : s.renewable_input = t.renewable_input) :
    gridsense_reroute_logic s = gridsense_reroute_logic t := by
  simp only [gridsense_reroute_logic, stressIndex, criticalRecord, faultRecord,
    loadedRecord, normalRecord, stressDeci, h1, h2, h3, h4, h5, h6]

/-- Witness for C9: two snapshots differing only in topology and weather
score evaluate to the same record. -/
theorem C9_witness :
    gridsense_reroute_logic ⟨60, 40, 20, 50, 0, "Normal-A/B", 900, 1/2⟩
      = gridsense_reroute_logic ⟨60, 40, 20, 50, 0, "Rerouted-B/A", 900, 9/10⟩ :=
  C9_noninterference _ _ rfl rfl rfl rfl rfl rfl

/-- C10: frame property of the high-load branch — a snapshot it accepts
keeps the Normal-branch defaults for the status glyph, `fault_alert`,
`self_care_alert`, `reroute_message` and the stress index, and only
`future_prediction` and `sustainability_suggestion` differ from the Normal
record. -/
theorem C10_loaded_frame (s : SensorSnapshot) (hdom : InDomain s)
    (hs : stressIndex s < 80) (hf : s.fault_signal = 0) (hl : s.load_percentage > 80) :
    (gridsense_reroute_logic s).status_color = (normalRecord s).status_color
    ∧ (gridsense_reroute_logic s).fault_alert = (normalRecord s).fault_alert
    ∧ (gridsense_reroute_logic s).self_care_alert = (normalRecord s).self_care_alert
    ∧ (gridsense_reroute_logic s).reroute_message = (normalRecord s).reroute_message
    ∧ (gridsense_reroute_logic s).stress_index = (normalRecord s).stress_index
    ∧ (gridsense_reroute_logic s).future_prediction ≠ (normalRecord s).future_prediction
    ∧ (gridsense_reroute_logic s).sustainability_suggestion
        ≠ (normalRecord s).sustainability_suggestion := by
  have hf' : s.fault_signal ≠ 1 := by rw [hf]; decide
  rw [logic_loaded s hs hf' hl]
  refine ⟨rfl, rfl, rfl, rfl, rfl, ?_, ?_⟩
  · apply string_ne_of_head_ne
    show ("Load high (" ++ toString s.load_percentage
        ++ "%). Balancing advised.").data.head?
      ≠ "Stable. No maintenance required.".data.head?
    rw [head_append2 "Load high (" (toString s.load_percentage)
      "%). Balancing advised." 'L' _ rfl]
    decide
  · apply string_ne_of_head_ne
    show "Shifting 10% load to Line B to avoid wastage.".data.head?
      ≠ ("Routing " ++ toString s.renewable_input
          ++ " MW clean energy efficiently.").data.head?
    rw [head_append2 "Routing " (toString s.renewable_input)
      " MW clean energy efficiently." 'R' _ rfl]
    decide

/-- Witness for C10 at a concrete in-domain snapshot with load 95. -/
theorem C10_witness :
    InDomain ⟨50, 30, 0, 95, 0, "Normal-A/B", 800, 0⟩
    ∧ (gridsense_reroute_logic ⟨50, 30, 0, 95, 0, "Normal-A/B", 800, 0⟩).fault_alert
        = (normalRecord ⟨50, 30, 0, 95, 0, "Normal-A/B", 800, 0⟩).fault_alert
    ∧ (gridsense_reroute_logic ⟨50, 30, 0, 95, 0, "Normal-A/B", 800, 0⟩).future_prediction
        ≠ (normalRecord ⟨50, 30, 0, 95, 0, "Normal-A/B", 800, 0⟩).future_prediction :=
  ⟨by norm_num [InDomain],
    (C10_loaded_frame _ (by norm_num [InDomain]) (by norm_num [stressIndex])
      rfl (by norm_num)).2.1,
    (C10_loaded_frame _ (by norm_num [InDomain]) (by norm_num [stressIndex])
      rfl (by norm_num)).2.2.2.2.2.1⟩
